import Mathlib

/-!
Shallow embedding of the OAuth token lifecycle and response-normalization
layer of the jots-media-tracker plugin (src/api/simkl.ts, src/api/trakt.ts,
and the legacy bucketed SIMKL client), together with theorems checking the
specification's claims against it.

JavaScript conventions are modelled explicitly:
* an optional field is `Option _`; JS truthiness treats `""` and `0` as
  falsy, captured by `truthyStr` and `truthyInt`;
* timestamps are epoch milliseconds as `Int`; a raw date-string field is
  `RawDate = Option (Option Int)`: `none` means the field is absent or
  falsy, `some none` means it is truthy but `new Date(...)` yields an
  invalid date, and `some (some t)` means it parses to epoch-ms `t`;
* a function that can `throw` returns `Option _` (or `Except`), with
  `none` for the thrown path.
-/

namespace MediaTracker

/-- JS truthiness of an optional string field (`undefined` and `""` are falsy). -/
def truthyStr : Option String → Bool
  | none => false
  | some s => s != ""

/-- JS truthiness of an optional numeric field (`undefined` and `0` are falsy). -/
def truthyInt : Option Int → Bool
  | none => false
  | some n => n != 0

/-- JS `a || d` for an optional number with default `d`. -/
def jsNumOr (a : Option Int) (d : Int) : Int :=
  match a with
  | none => d
  | some x => if x = 0 then d else x

/-- JS `a || d` for an optional string with default `d`. -/
def jsStrOr (a : Option String) (d : String) : String :=
  match a with
  | none => d
  | some s => if s = "" then d else s

/-- A raw date-string field as read by the normalizers; see the module comment. -/
abbrev RawDate := Option (Option Int)

/-! ## Token store and lifecycle (src/api/simkl.ts, src/api/trakt.ts) -/

/-- The mutable token fields of `SimklAPI` / `TraktAPI`
(`accessToken`, `refreshToken`, `tokenExpiresAt`). -/
structure TokenState where
  accessToken : Option String
  refreshToken : Option String
  tokenExpiresAt : Option Int
deriving Repr, DecidableEq

/-- A token endpoint response body (`TokenResponse` in src/api/types.ts).
`expires_in` is declared a required number there, so it is a plain `Int`
whose JS-falsy value is `0`. -/
structure TokenResponse where
  access_token : Option String
  refresh_token : Option String
  expires_in : Int
  created_at : Option Int
deriving Repr, DecidableEq

/-- Model of `SimklAPI.setTokenData` (src/api/simkl.ts:115-133). `none` models the
`No access token received` throw, which in the source happens before any
field is assigned, so the thrown path mutates nothing. -/
def setTokenDataS (now : Int) (s : TokenState) (d : TokenResponse) : Option TokenState :=
  if truthyStr d.access_token then
    let s1 : TokenState := { s with accessToken := d.access_token }
    let s2 : TokenState :=
      if truthyStr d.refresh_token then { s1 with refreshToken := d.refresh_token } else s1
    let s3 : TokenState :=
      if d.expires_in ≠ 0 then { s2 with tokenExpiresAt := some (now + d.expires_in * 1000) }
      else s2
    some s3
  else none

/-- Model of `TraktAPI.setTokenData` (src/api/trakt.ts:140-160): like the SIMKL variant,
but afterwards a truthy `created_at` overwrites the expiry with the absolute
basis `(created_at + expires_in) * 1000`. -/
def setTokenDataT (now : Int) (s : TokenState) (d : TokenResponse) : Option TokenState :=
  if truthyStr d.access_token then
    let s1 : TokenState := { s with accessToken := d.access_token }
    let s2 : TokenState :=
      if truthyStr d.refresh_token then { s1 with refreshToken := d.refresh_token } else s1
    let s3 : TokenState :=
      if d.expires_in ≠ 0 then { s2 with tokenExpiresAt := some (now + d.expires_in * 1000) }
      else s2
    let s4 : TokenState :=
      if truthyInt d.created_at then
        { s3 with tokenExpiresAt := some ((d.created_at.getD 0 + d.expires_in) * 1000) }
      else s3
    some s4
  else none

/-- Network-level outcome of the refresh POST: `netFail` covers a transport
error or a non-2xx status (both throw before `setTokenData` runs). -/
inductive RefreshHttp where
  | netFail
  | ok (data : TokenResponse)
deriving Repr, DecidableEq

/-- Model of `refreshAccessToken` (src/api/simkl.ts:85-113, src/api/trakt.ts:108-138),
parameterized over the service's `setTokenData`. `none` covers the
`No refresh token available` throw, a failed HTTP exchange, and a body with
no access token; every throwing path in the source precedes all writes. -/
def refreshAccessTokenWith (setTD : Int → TokenState → TokenResponse → Option TokenState)
    (now : Int) (s : TokenState) (resp : RefreshHttp) : Option TokenState :=
  if truthyStr s.refreshToken then
    match resp with
    | .netFail => none
    | .ok d => setTD now s d
  else none

/-- The two failure kinds `ensureValidToken` can throw. -/
inductive AuthError where
  | NotAuthenticated
  | AuthenticationExpired
deriving Repr, DecidableEq

/-- Normal return or thrown error of an `ensureValidToken` call. -/
inductive CallResult where
  | ok
  | error (e : AuthError)
deriving Repr, DecidableEq

/-- Observable outcome of one `ensureValidToken` call: the returned or thrown
value, whether the refresh network call was attempted, and the token fields
after the call. -/
structure EnsureResult where
  result : CallResult
  refreshAttempted : Bool
  state : TokenState
deriving Repr, DecidableEq

/-- Model of `ensureValidToken` (identical logic in src/api/simkl.ts:135-155 and
src/api/trakt.ts:162-182), parameterized over the service's `setTokenData`.
`now1` is the clock at the freshness check and `now2` the clock at the
post-refresh-failure expiry check (the source calls `Date.now()` twice, and
the refresh round trip sits between the two reads). -/
def ensureValidTokenWith (setTD : Int → TokenState → TokenResponse → Option TokenState)
    (s : TokenState) (now1 now2 : Int) (resp : RefreshHttp) : EnsureResult :=
  if truthyStr s.accessToken then
    if truthyInt s.tokenExpiresAt then
      let e := s.tokenExpiresAt.getD 0
      if e - now1 < 300000 then
        match refreshAccessTokenWith setTD now2 s resp with
        | some s2 => { result := .ok, refreshAttempted := true, state := s2 }
        | none =>
          if now2 > e then
            { result := .error .AuthenticationExpired, refreshAttempted := true, state := s }
          else
            { result := .ok, refreshAttempted := true, state := s }
      else { result := .ok, refreshAttempted := false, state := s }
    else { result := .ok, refreshAttempted := false, state := s }
  else { result := .error .NotAuthenticated, refreshAttempted := false, state := s }

/-- Model of `SimklAPI.setTokens` (src/api/simkl.ts:277-295). `none` models the
`Access token is required` throw. -/
def setTokens (now : Int) (s : TokenState) (accessToken : String)
    (refreshToken : Option String) (expiresIn : Option Int) : Option TokenState :=
  if accessToken = "" then none
  else
    let s1 : TokenState := { s with accessToken := some accessToken }
    let s2 : TokenState :=
      if truthyStr refreshToken then { s1 with refreshToken := refreshToken } else s1
    let s3 : TokenState :=
      if truthyInt expiresIn then
        if expiresIn.getD 0 > 0 then { s2 with tokenExpiresAt := some (now + expiresIn.getD 0 * 1000) }
        else s2
      else s2
    some s3

/-- Model of `SimklAPI.getTokens` (src/api/simkl.ts:297-303): a snapshot of the three
stored fields. -/
def getTokens (s : TokenState) : TokenState :=
  { accessToken := s.accessToken, refreshToken := s.refreshToken,
    tokenExpiresAt := s.tokenExpiresAt }

/-! ## Raw history payloads and the unified item model -/

/-- A raw ids object as the normalizers read it (`trakt` is the Trakt-side
numeric id; `simkl` the SIMKL-side one). -/
structure RawIds where
  simkl : Option Int := none
  trakt : Option Int := none
  slug : Option String := none
  tvdb : Option Int := none
  imdb : Option String := none
  tmdb : Option Int := none
deriving Repr, DecidableEq

/-- A raw movie or show object. -/
structure RawMedia where
  title : Option String := none
  year : Option Int := none
  runtime : Option Int := none
  ids : Option RawIds := none
deriving Repr, DecidableEq

/-- A raw episode object. The event-style clients read the episode number
from `.number`; the bucketed client reads it from `.episode`. -/
structure RawEpisode where
  title : Option String := none
  season : Option Int := none
  number : Option Int := none
  episode : Option Int := none
  runtime : Option Int := none
  ids : Option RawIds := none
deriving Repr, DecidableEq

/-- One raw history entry as the normalizers read it (`show_` stands for the
source field `show`, a Lean keyword). The bare
`title`/`year`/`runtime`/`ids` fields model the bucketed client's
`item.movie || item` and `item.show || item` fallback to the entry itself. -/
structure RawItem where
  watched_at : RawDate := none
  last_watched_at : RawDate := none
  last_watched : Option String := none
  type : Option String := none
  movie : Option RawMedia := none
  show_ : Option RawMedia := none
  episode : Option RawEpisode := none
  title : Option String := none
  year : Option Int := none
  runtime : Option Int := none
  ids : Option RawIds := none
deriving Repr, DecidableEq

/-- Ids of an emitted `SimklHistoryItem`; fields the emitting branch does not
write are `none`. -/
structure OutIds where
  simkl : Option Int := none
  slug : Option String := none
  tvdb : Option Int := none
  imdb : Option String := none
  tmdb : Option Int := none
deriving Repr, DecidableEq

/-- Movie or show substructure of an emitted item. -/
structure OutMedia where
  title : Option String := none
  year : Option Int := none
  runtime : Option Int := none
  ids : OutIds := {}
deriving Repr, DecidableEq

/-- Episode substructure of an emitted item. -/
structure OutEpisode where
  title : Option String := none
  season : Option Int := none
  episode : Option Int := none
  runtime : Option Int := none
  ids : OutIds := {}
deriving Repr, DecidableEq

/-- An emitted `SimklHistoryItem` (src/api/types.ts); the two ISO date strings
are modelled by their epoch-millisecond values, and `show_` stands for the
source field `show`, a Lean keyword. -/
structure OutItem where
  watched_at : Int
  started_at : Int
  type : String
  movie : Option OutMedia := none
  show_ : Option OutMedia := none
  episode : Option OutEpisode := none
deriving Repr, DecidableEq

/-- JS `Array.prototype.map` whose callback may throw: the first `none` aborts
the traversal and the surrounding try/catch turns it into a batch error. -/
def mapOrThrow (f : RawItem → Option OutItem) : List RawItem → Option (List OutItem)
  | [] => some []
  | i :: rest =>
    match f i with
    | none => none
    | some o =>
      match mapOrThrow f rest with
      | none => none
      | some os => some (o :: os)

/-! ## Event-style SIMKL normalizer (src/api/simkl.ts, fetchViewingInfo) -/

/-- The runtime extraction of src/api/simkl.ts:206-214: movie runtime first,
then episode runtime, then show runtime, else 0 — each guard requires the
substructure present and its runtime truthy. -/
def simklEventRuntime (i : RawItem) : Int :=
  if truthyInt (i.movie.bind RawMedia.runtime) then (i.movie.bind RawMedia.runtime).getD 0
  else if truthyInt (i.episode.bind RawEpisode.runtime) then (i.episode.bind RawEpisode.runtime).getD 0
  else if truthyInt (i.show_.bind RawMedia.runtime) then (i.show_.bind RawMedia.runtime).getD 0
  else 0

/-- The movie substructure emitted at src/api/simkl.ts:226-236
(`ids?.simkl || 0`, `ids?.slug || ''`). -/
def simklOutMovie (m : RawMedia) : OutMedia :=
  { title := m.title, year := m.year, runtime := m.runtime,
    ids := { simkl := some (jsNumOr (m.ids.bind RawIds.simkl) 0),
             slug := some (jsStrOr (m.ids.bind RawIds.slug) ""),
             imdb := m.ids.bind RawIds.imdb,
             tmdb := m.ids.bind RawIds.tmdb } }

/-- The show substructure emitted at src/api/simkl.ts:238-249. -/
def simklOutShow (m : RawMedia) : OutMedia :=
  { title := m.title, year := m.year, runtime := m.runtime,
    ids := { simkl := some (jsNumOr (m.ids.bind RawIds.simkl) 0),
             slug := some (jsStrOr (m.ids.bind RawIds.slug) ""),
             tvdb := m.ids.bind RawIds.tvdb,
             imdb := m.ids.bind RawIds.imdb,
             tmdb := m.ids.bind RawIds.tmdb } }

/-- The episode substructure emitted at src/api/simkl.ts:252-262. -/
def simklOutEpisode (ep : RawEpisode) : OutEpisode :=
  { title := ep.title, season := ep.season, episode := ep.number,
    runtime := ep.runtime,
    ids := { tvdb := ep.ids.bind RawIds.tvdb,
             imdb := ep.ids.bind RawIds.imdb,
             tmdb := ep.ids.bind RawIds.tmdb } }

/-- One iteration of the `items.map` callback at src/api/simkl.ts:200-266.
`none` models a throw: a falsy `watched_at` throws explicitly, and a truthy
but unparseable one makes `startedAt.toISOString()` throw. -/
def simklNormalizeItem (i : RawItem) : Option OutItem :=
  match i.watched_at with
  | none => none
  | some none => none
  | some (some t) =>
    let runtime := simklEventRuntime i
    let base : OutItem :=
      { watched_at := t, started_at := t - runtime * 60000,
        type := if i.movie.isSome then "movie" else "show" }
    some <|
      match i.movie with
      | some m => { base with movie := some (simklOutMovie m) }
      | none =>
        match i.show_ with
        | some sh =>
          match i.episode with
          | some ep => { base with show_ := some (simklOutShow sh), episode := some (simklOutEpisode ep) }
          | none => { base with show_ := some (simklOutShow sh) }
        | none => base

/-- Top-level shape of the event-style SIMKL response:
`Array.isArray(data) ? data : data.items || []` (src/api/simkl.ts:197);
`nullish` stands for a payload on which reading `.items` throws. -/
inductive SimklPayload where
  | arr (items : List RawItem)
  | obj (items : Option (List RawItem))
  | nullish
deriving Repr, DecidableEq

/-- The whole normalization step of `SimklAPI.fetchViewingInfo`
(src/api/simkl.ts:195-274): any throw inside the try block is caught and
re-raised as one batch-level parse error, modelled by `none`. -/
def simklNormalize (data : SimklPayload) : Option (List OutItem) :=
  match data with
  | .nullish => none
  | .arr l => mapOrThrow simklNormalizeItem l
  | .obj (some l) => mapOrThrow simklNormalizeItem l
  | .obj none => mapOrThrow simklNormalizeItem []

/-! ## Trakt normalizer (src/api/trakt.ts, fetchViewingInfo) -/

/-- The runtime each branch of src/api/trakt.ts:260-284 resolves:
`movie.runtime || 0` for movies, `episode.runtime || show.runtime || 0`
for episodes, irrelevant otherwise. -/
def traktRuntime (i : RawItem) : Int :=
  match i.type, i.movie, i.show_, i.episode with
  | some "movie", some m, _, _ => jsNumOr m.runtime 0
  | some "episode", _, some sh, some ep => jsNumOr ep.runtime (jsNumOr sh.runtime 0)
  | _, _, _, _ => 0

/-- One iteration of the `historyItems.map` callback at
src/api/trakt.ts:256-316. `none` models a throw: explicit for a falsy
`watched_at` and for an unrecognized type or missing substructure, implicit
for a missing ids object (`item.movie.ids.trakt` raises a TypeError) and for
an unparseable date (`toISOString` raises a RangeError). -/
def traktNormalizeItem (i : RawItem) : Option OutItem :=
  match i.watched_at with
  | none => none
  | some wd =>
    match i.type, i.movie, i.show_, i.episode with
    | some "movie", some m, _, _ =>
      match m.ids, wd with
      | some mids, some t =>
        some
          { watched_at := t, started_at := t - jsNumOr m.runtime 0 * 60000,
            type := "movie",
            movie := some
              { title := m.title, year := m.year, runtime := m.runtime,
                ids :=
                  { simkl := mids.trakt, slug := mids.slug,
                    imdb := mids.imdb, tmdb := mids.tmdb } } }
      | _, _ => none
    | some "episode", _, some sh, some ep =>
      match sh.ids, ep.ids, wd with
      | some sids, some eids, some t =>
        some
          { watched_at := t,
            started_at := t - jsNumOr ep.runtime (jsNumOr sh.runtime 0) * 60000,
            type := "show",
            show_ := some
              { title := sh.title, year := sh.year, runtime := sh.runtime,
                ids :=
                  { simkl := sids.trakt, slug := sids.slug,
                    tvdb := sids.tvdb, imdb := sids.imdb, tmdb := sids.tmdb } },
            episode := some
              { title := ep.title, season := ep.season, episode := ep.number,
                runtime := ep.runtime,
                ids :=
                  { tvdb := eids.tvdb, imdb := eids.imdb, tmdb := eids.tmdb } } }
      | _, _, _ => none
    | _, _, _, _ => none

/-- Top-level shape of the Trakt response:
`Array.isArray(data) ? data : []` (src/api/trakt.ts:251). -/
inductive TraktPayload where
  | arr (items : List RawItem)
  | nonArray
deriving Repr, DecidableEq

/-- The normalization step of `TraktAPI.fetchViewingInfo`
(src/api/trakt.ts:250-324): a non-array payload becomes an empty batch; any
throw inside the map is caught and re-raised as one batch-level parse error. -/
def traktNormalize (data : TraktPayload) : Option (List OutItem) :=
  match data with
  | .nonArray => mapOrThrow traktNormalizeItem []
  | .arr l => mapOrThrow traktNormalizeItem l

/-! ## Bucketed SIMKL normalizer (src/unnamed/part_002, fetchViewingInfo) -/

/-- JS `a || b` on two raw date fields (`item.watched_at || item.last_watched_at`). -/
def rawDateOr (a b : RawDate) : RawDate :=
  match a with
  | none => b
  | some x => some x

/-- The effective watched timestamp of a bucket entry (part_002:208, 217). -/
def effWatched (i : RawItem) : RawDate :=
  rawDateOr i.watched_at i.last_watched_at

/-- The client-side date-range filter (part_002:207-215, 263-271): drop the
entry unless its effective watched date parses and its timestamp lies in
`[startTs, endTs]` inclusive. -/
def bucketInRange (startTs endTs : Int) (i : RawItem) : Bool :=
  match effWatched i with
  | some (some t) => decide (startTs ≤ t ∧ t ≤ endTs)
  | _ => false

/-- The entry itself read as a media object, for `item.movie || item` and
`item.show || item` (part_002:223, 279). -/
def selfMedia (i : RawItem) : RawMedia :=
  { title := i.title, year := i.year, runtime := i.runtime, ids := i.ids }

/-- JS `item.movie || item` (part_002:223). -/
def bucketMovieData (i : RawItem) : RawMedia :=
  match i.movie with
  | some m => m
  | none => selfMedia i

/-- JS `item.show || item` (part_002:279). -/
def bucketShowData (i : RawItem) : RawMedia :=
  match i.show_ with
  | some m => m
  | none => selfMedia i

/-- Longest run of leading digits of a character list, with the rest. -/
def takeDigits : List Char → List Char × List Char
  | [] => ([], [])
  | c :: cs =>
    if c.isDigit then
      let p := takeDigits cs
      (c :: p.1, p.2)
    else ([], c :: cs)

/-- Base-10 value of a digit list, as `parseInt(..., 10)` computes it. -/
def digitsToNat (ds : List Char) : Nat :=
  ds.foldl (fun acc c => 10 * acc + (c.toNat - 48)) 0

/-- Try to match the regex `S(\d+)E(\d+)` at the head of the list. Since a
digit run can never contain `E`, greedy matching with backtracking is the
same as taking the maximal digit runs. -/
def matchSEAt : List Char → Option (Nat × Nat)
  | 'S' :: rest =>
    let p1 := takeDigits rest
    if p1.1 = [] then none
    else
      match p1.2 with
      | 'E' :: rest2 =>
        let p2 := takeDigits rest2
        if p2.1 = [] then none else some (digitsToNat p1.1, digitsToNat p2.1)
      | _ => none
  | _ => none

/-- Leftmost match of `S(\d+)E(\d+)`, as `String.prototype.match` finds it. -/
def findSE : List Char → Option (Nat × Nat)
  | [] => none
  | c :: cs =>
    match matchSEAt (c :: cs) with
    | some p => some p
    | none => findSE cs

/-- Model of `last_watched.match(/S(\d+)E(\d+)/)` with the two captured numbers
(part_002:289). -/
def parseSE (s : String) : Option (Nat × Nat) :=
  findSE s.data

/-- The episode data a bucket show entry resolves to (part_002:286-298): the
structured `item.episode` if present, else the compact `S<season>E<episode>`
fallback parsed from a truthy `last_watched`, carrying an empty title and the
show runtime. -/
def bucketFinalEp (i : RawItem) : Option RawEpisode :=
  match i.episode with
  | some ep => some ep
  | none =>
    if truthyStr i.last_watched then
      match parseSE (i.last_watched.getD "") with
      | some p =>
        some { title := some "", season := some (p.1 : Int), episode := some (p.2 : Int),
               runtime := (bucketShowData i).runtime }
      | none => none
    else none

/-- A raw ids object passed through to the output unchanged
(`ids: finalEpisodeData.ids || \x7b\x7d`, part_002:331), projected onto the
emitted fields. -/
def outIdsOfRaw (o : Option RawIds) : OutIds :=
  match o with
  | none => {}
  | some r => { simkl := r.simkl, slug := r.slug, tvdb := r.tvdb, imdb := r.imdb, tmdb := r.tmdb }

/-- One iteration of the movies `.map` callback (part_002:216-254): `none`
models `return null` — missing effective watched date, missing title, or the
caught RangeError from `toISOString` on an unparseable date. -/
def bucketMovieItem (i : RawItem) : Option OutItem :=
  match effWatched i with
  | none => none
  | some wd =>
    let movieData := bucketMovieData i
    if truthyStr movieData.title then
      match wd with
      | none => none
      | some t =>
        let runtime := jsNumOr movieData.runtime 0
        some
          { watched_at := t, started_at := t - runtime * 60000,
            type := "movie",
            movie := some
              { title := movieData.title, year := movieData.year,
                runtime := movieData.runtime,
                ids :=
                  { simkl := some (jsNumOr (movieData.ids.bind RawIds.simkl) 0),
                    slug := some (jsStrOr (movieData.ids.bind RawIds.slug) ""),
                    imdb := movieData.ids.bind RawIds.imdb,
                    tmdb := movieData.ids.bind RawIds.tmdb } } }
    else none

/-- One iteration of the shows `.map` callback (part_002:272-338): `none`
models `return null` — missing effective watched date, missing show title,
no resolvable episode identity, or the caught RangeError on an unparseable
date. -/
def bucketShowItem (i : RawItem) : Option OutItem :=
  match effWatched i with
  | none => none
  | some wd =>
    let showData := bucketShowData i
    if truthyStr showData.title then
      match bucketFinalEp i with
      | none => none
      | some ep =>
        match wd with
        | none => none
        | some t =>
          let runtime := jsNumOr ep.runtime (jsNumOr showData.runtime 0)
          some
            { watched_at := t, started_at := t - runtime * 60000,
              type := "show",
              show_ := some
                { title := showData.title, year := showData.year,
                  runtime := showData.runtime,
                  ids :=
                    { simkl := some (jsNumOr (showData.ids.bind RawIds.simkl) 0),
                      slug := some (jsStrOr (showData.ids.bind RawIds.slug) ""),
                      tvdb := showData.ids.bind RawIds.tvdb,
                      imdb := showData.ids.bind RawIds.imdb,
                      tmdb := showData.ids.bind RawIds.tmdb } },
              episode := some
                { title := some (jsStrOr ep.title ""), season := ep.season,
                  episode := ep.episode, runtime := ep.runtime,
                  ids := outIdsOfRaw ep.ids } }
    else none

/-- The bucketed payload: `data.movies` / `data.shows`, each used only when
present and an array (part_002:205, 261). -/
structure BucketPayload where
  movies : Option (List RawItem) := none
  shows : Option (List RawItem) := none
deriving Repr, DecidableEq

/-- One bucket: range-filter the entries, map them, drop the nulls. -/
def bucketProcess (f : RawItem → Option OutItem) (startTs endTs : Int) :
    Option (List RawItem) → List OutItem
  | none => []
  | some l => (l.filter (bucketInRange startTs endTs)).filterMap f

/-- The normalization step of the bucketed `fetchViewingInfo`
(part_002:160-351): `none` models the `Start date must be before end date`
throw; otherwise the movie items are emitted first, then the show items.
Date-range arguments are modelled by their parsed epoch-ms values (an
unparseable range argument also throws, outside this model's domain). -/
def bucketNormalize (startTs endTs : Int) (data : BucketPayload) : Option (List OutItem) :=
  if startTs > endTs then none
  else
    some (bucketProcess bucketMovieItem startTs endTs data.movies
          ++ bucketProcess bucketShowItem startTs endTs data.shows)

/-! ## Theorems about the token lifecycle -/

/-- C1: for a credential state with an access token and a truthy recorded
expiry `e`, when the proactive refresh is attempted (the expiry is within the
5-minute window at the check) and fails, `ensureValidToken` fails with
`AuthenticationExpired` exactly when the current time is strictly past `e`;
a failing refresh at or before `e` is swallowed and the call returns
successfully (soft-fail). Stated for both services at once via their shared
`ensureValidTokenWith` core. -/
theorem ensure_valid_failing_refresh_expired_iff
    (setTD : Int → TokenState → TokenResponse → Option TokenState)
    (s : TokenState) (now1 now2 : Int) (resp : RefreshHttp) (e : Int)
    (hacc : truthyStr s.accessToken = true)
    (hexp : s.tokenExpiresAt = some e) (hne : e ≠ 0)
    (hwin : e - now1 < 300000)
    (hfail : refreshAccessTokenWith setTD now2 s resp = none) :
    ((ensureValidTokenWith setTD s now1 now2 resp).result
        = CallResult.error AuthError.AuthenticationExpired ↔ now2 > e)
    ∧ (now2 ≤ e →
        (ensureValidTokenWith setTD s now1 now2 resp).result = CallResult.ok) := by
  unfold ensureValidTokenWith
  simp only [hacc, hexp, truthyInt, bne_iff_ne, ne_eq, hne, not_false_eq_true, if_true,
    Option.getD_some, hwin, hfail]
  constructor
  · by_cases h : now2 > e <;> simp [h]
  · intro h
    have h' : ¬ now2 > e := by omega
    simp [h']

/-- Witness for C1 at a concrete expired state. -/
theorem ensure_valid_failing_refresh_expired_iff_witness :
    ((ensureValidTokenWith setTokenDataS
        { accessToken := some "a", refreshToken := some "r", tokenExpiresAt := some 1000 }
        2000 2000 RefreshHttp.netFail).result
      = CallResult.error AuthError.AuthenticationExpired ↔ (2000 : Int) > 1000)
    ∧ ((2000 : Int) ≤ 1000 →
        (ensureValidTokenWith setTokenDataS
          { accessToken := some "a", refreshToken := some "r", tokenExpiresAt := some 1000 }
          2000 2000 RefreshHttp.netFail).result = CallResult.ok) :=
  ensure_valid_failing_refresh_expired_iff setTokenDataS
    { accessToken := some "a", refreshToken := some "r", tokenExpiresAt := some 1000 }
    2000 2000 RefreshHttp.netFail 1000 (by decide) rfl (by decide) (by decide) (by decide)

/-- C7: `ensureValidToken` fails with `NotAuthenticated` exactly when no
(truthy) access token is stored; and with an access token and either no
recorded expiry or an expiry at least 5 minutes in the future, it returns
successfully without attempting a refresh (no network call). -/
theorem ensure_valid_fresh_no_refresh
    (setTD : Int → TokenState → TokenResponse → Option TokenState)
    (s : TokenState) (now1 now2 : Int) (resp : RefreshHttp) :
    (truthyStr s.accessToken = false →
      (ensureValidTokenWith setTD s now1 now2 resp).result
        = CallResult.error AuthError.NotAuthenticated)
    ∧ (truthyStr s.accessToken = true →
        (s.tokenExpiresAt = none ∨ ∃ e, s.tokenExpiresAt = some e ∧ e - now1 ≥ 300000) →
        (ensureValidTokenWith setTD s now1 now2 resp).result = CallResult.ok
          ∧ (ensureValidTokenWith setTD s now1 now2 resp).refreshAttempted = false) := by
  constructor
  · intro h
    simp [ensureValidTokenWith, h]
  · rintro hacc (hnone | ⟨e, hsome, hfar⟩)
    · simp [ensureValidTokenWith, hacc, hnone, truthyInt]
    · by_cases hz : e = 0
      · simp [ensureValidTokenWith, hacc, hsome, hz, truthyInt]
      · have : ¬ e - now1 < 300000 := by omega
        simp [ensureValidTokenWith, hacc, hsome, truthyInt, hz, this]

/-- Witness for C7: a tokenless state fails, a far-future expiry skips the
refresh. -/
theorem ensure_valid_fresh_no_refresh_witness :
    ((ensureValidTokenWith setTokenDataS
        { accessToken := none, refreshToken := none, tokenExpiresAt := none }
        0 0 RefreshHttp.netFail).result = CallResult.error AuthError.NotAuthenticated)
    ∧ ((ensureValidTokenWith setTokenDataS
          { accessToken := some "a", refreshToken := none, tokenExpiresAt := some 900000 }
          0 0 RefreshHttp.netFail).result = CallResult.ok
        ∧ (ensureValidTokenWith setTokenDataS
            { accessToken := some "a", refreshToken := none, tokenExpiresAt := some 900000 }
            0 0 RefreshHttp.netFail).refreshAttempted = false) :=
  ⟨(ensure_valid_fresh_no_refresh setTokenDataS
      { accessToken := none, refreshToken := none, tokenExpiresAt := none }
      0 0 RefreshHttp.netFail).1 (by decide),
   (ensure_valid_fresh_no_refresh setTokenDataS
      { accessToken := some "a", refreshToken := none, tokenExpiresAt := some 900000 }
      0 0 RefreshHttp.netFail).2 (by decide)
     (Or.inr ⟨900000, rfl, by decide⟩)⟩

/-- C10: the stored fields change only through a successful refresh's
write-through; on a thrown `NotAuthenticated` or `AuthenticationExpired` and
on the swallowed soft-fail (failing refresh) the stored access token, refresh
token, and expiry are exactly as before the call. -/
theorem ensure_valid_frame
    (setTD : Int → TokenState → TokenResponse → Option TokenState)
    (s : TokenState) (now1 now2 : Int) (resp : RefreshHttp) :
    (∀ err, (ensureValidTokenWith setTD s now1 now2 resp).result = CallResult.error err →
      (ensureValidTokenWith setTD s now1 now2 resp).state = s)
    ∧ (refreshAccessTokenWith setTD now2 s resp = none →
        (ensureValidTokenWith setTD s now1 now2 resp).state = s)
    ∧ ((ensureValidTokenWith setTD s now1 now2 resp).state ≠ s →
        refreshAccessTokenWith setTD now2 s resp
          = some (ensureValidTokenWith setTD s now1 now2 resp).state) := by
  unfold ensureValidTokenWith
  by_cases h1 : truthyStr s.accessToken
  · by_cases h2 : truthyInt s.tokenExpiresAt
    · by_cases h3 : s.tokenExpiresAt.getD 0 - now1 < 300000
      · cases hr : refreshAccessTokenWith setTD now2 s resp with
        | some s2 => simp [h1, h2, h3, hr]
        | none =>
          by_cases h4 : now2 > s.tokenExpiresAt.getD 0 <;> simp [h1, h2, h3, hr, h4]
      · simp [h1, h2, h3]
    · simp [h1, h2]
  · simp [h1]

/-- Witness for C10 at a concrete failing-refresh state. -/
theorem ensure_valid_frame_witness :
    (ensureValidTokenWith setTokenDataS
        { accessToken := some "a", refreshToken := some "r", tokenExpiresAt := some 1000 }
        2000 2000 RefreshHttp.netFail).state
      = { accessToken := some "a", refreshToken := some "r", tokenExpiresAt := some 1000 } :=
  (ensure_valid_frame setTokenDataS
    { accessToken := some "a", refreshToken := some "r", tokenExpiresAt := some 1000 }
    2000 2000 RefreshHttp.netFail).2.1 (by decide)

/-- C9: the token store round-trips. `setTokens(a, r, 3600)` followed by
`getTokens` yields the expiry `now + 3600` seconds exactly (so within any
tolerance); a subsequent `setTokens(a2, null, null)` replaces the access
token but retains the earlier refresh token (and expiry) in the snapshot. -/
theorem set_get_tokens_round_trip
    (s : TokenState) (now1 now2 : Int) (a a2 r : String)
    (ha : a ≠ "") (hr : r ≠ "") (ha2 : a2 ≠ "") :
    ∃ s1, setTokens now1 s a (some r) (some 3600) = some s1
      ∧ getTokens s1
          = { accessToken := some a, refreshToken := some r,
              tokenExpiresAt := some (now1 + 3600 * 1000) }
      ∧ ∃ s2, setTokens now2 s1 a2 none none = some s2
          ∧ (getTokens s2).accessToken = some a2
          ∧ (getTokens s2).refreshToken = some r
          ∧ (getTokens s2).tokenExpiresAt = some (now1 + 3600 * 1000) := by
  refine ⟨{ accessToken := some a, refreshToken := some r,
            tokenExpiresAt := some (now1 + 3600 * 1000) }, ?_, ?_,
          { accessToken := some a2, refreshToken := some r,
            tokenExpiresAt := some (now1 + 3600 * 1000) }, ?_, ?_, ?_, ?_⟩ <;>
    simp [setTokens, getTokens, truthyStr, truthyInt, ha, hr, ha2]

/-- Witness for C9 at concrete tokens. -/
theorem set_get_tokens_round_trip_witness :
    ∃ s1, setTokens 10 { accessToken := none, refreshToken := none, tokenExpiresAt := none }
        "t1" (some "r1") (some 3600) = some s1
      ∧ getTokens s1
          = { accessToken := some "t1", refreshToken := some "r1",
              tokenExpiresAt := some (10 + 3600 * 1000) }
      ∧ ∃ s2, setTokens 99 s1 "t2" none none = some s2
          ∧ (getTokens s2).accessToken = some "t2"
          ∧ (getTokens s2).refreshToken = some "r1"
          ∧ (getTokens s2).tokenExpiresAt = some (10 + 3600 * 1000) :=
  set_get_tokens_round_trip
    { accessToken := none, refreshToken := none, tokenExpiresAt := none }
    10 99 "t1" "t2" "r1" (by decide) (by decide) (by decide)

/-- C6 as stated is refuted by a successful refresh body carrying
`expires_in = 0`: the SIMKL `setTokenData` then leaves the previously stored
expiry in place (999) instead of recomputing it as `now + expires_in`. -/
theorem set_token_data_counterexample :
    setTokenDataS 0
        { accessToken := some "a", refreshToken := some "r", tokenExpiresAt := some 999 }
        { access_token := some "a2", refresh_token := none, expires_in := 0, created_at := none }
      = some { accessToken := some "a2", refreshToken := some "r", tokenExpiresAt := some 999 }
    ∧ (some 999 : Option Int) ≠ some (0 + 0 * 1000) := by
  constructor
  · rfl
  · decide

/-- C6 amended: on every successful `setTokenData`, the access token is
replaced by the supplied one; the refresh token is replaced only when the
body supplies a truthy one and retained otherwise; the expiry is recomputed
as `now + expires_in` seconds when `expires_in` is nonzero and retained
otherwise; and in the Trakt variant a nonzero `created_at` makes the absolute
basis `(created_at + expires_in)` seconds take precedence. -/
theorem set_token_data_update_rules
    (now : Int) (s : TokenState) (d : TokenResponse) (s' : TokenState) :
    (setTokenDataS now s d = some s' →
      s'.accessToken = d.access_token
      ∧ (truthyStr d.refresh_token = true → s'.refreshToken = d.refresh_token)
      ∧ (truthyStr d.refresh_token = false → s'.refreshToken = s.refreshToken)
      ∧ (d.expires_in ≠ 0 → s'.tokenExpiresAt = some (now + d.expires_in * 1000))
      ∧ (d.expires_in = 0 → s'.tokenExpiresAt = s.tokenExpiresAt))
    ∧ (setTokenDataT now s d = some s' →
      s'.accessToken = d.access_token
      ∧ (truthyStr d.refresh_token = true → s'.refreshToken = d.refresh_token)
      ∧ (truthyStr d.refresh_token = false → s'.refreshToken = s.refreshToken)
      ∧ (truthyInt d.created_at = true →
          s'.tokenExpiresAt = some ((d.created_at.getD 0 + d.expires_in) * 1000))
      ∧ (truthyInt d.created_at = false →
          (d.expires_in ≠ 0 → s'.tokenExpiresAt = some (now + d.expires_in * 1000))
          ∧ (d.expires_in = 0 → s'.tokenExpiresAt = s.tokenExpiresAt))) := by
  constructor
  · intro h
    unfold setTokenDataS at h
    split at h
    · simp only [Option.some_inj] at h
      subst h
      by_cases hr : truthyStr d.refresh_token <;> by_cases he : d.expires_in = 0 <;>
        simp_all
    · exact absurd h (by simp)
  · intro h
    unfold setTokenDataT at h
    split at h
    · simp only [Option.some_inj] at h
      subst h
      by_cases hr : truthyStr d.refresh_token <;> by_cases he : d.expires_in = 0 <;>
        by_cases hc : truthyInt d.created_at <;> simp_all
    · exact absurd h (by simp)

/-- Witness for the amended C6: at a concrete refresh body with no new
refresh token, the stored refresh token is retained. -/
theorem set_token_data_update_rules_witness :
    TokenState.refreshToken
        { accessToken := some "a2", refreshToken := some "r", tokenExpiresAt := some 999 }
      = TokenState.refreshToken
        { accessToken := some "a", refreshToken := some "r", tokenExpiresAt := some 999 } :=
  ((set_token_data_update_rules 0
      { accessToken := some "a", refreshToken := some "r", tokenExpiresAt := some 999 }
      { access_token := some "a2", refresh_token := none, expires_in := 0, created_at := none }
      { accessToken := some "a2", refreshToken := some "r", tokenExpiresAt := some 999 }).1
    (by decide)).2.2.1 (by decide)

/-! ## Helper lemmas about the normalizers -/

/-- An entry the callback maps to null is skipped and every sibling of the
same bucket survives in order. -/
theorem bucketProcess_append_none (f : RawItem → Option OutItem)
    (startTs endTs : Int) (xs ys : List RawItem) (bad : RawItem)
    (h : f bad = none) :
    bucketProcess f startTs endTs (some (xs ++ bad :: ys))
      = bucketProcess f startTs endTs (some xs)
        ++ bucketProcess f startTs endTs (some ys) := by
  unfold bucketProcess
  dsimp only
  rw [List.filter_append, List.filterMap_append, List.filter_cons]
  by_cases hb : bucketInRange startTs endTs bad = true <;>
    simp [hb, h, List.filterMap_cons]

/-- An entry whose callback throws aborts the whole event-style map. -/
theorem mapOrThrow_append_none (f : RawItem → Option OutItem)
    (xs ys : List RawItem) (bad : RawItem) (h : f bad = none) :
    mapOrThrow f (xs ++ bad :: ys) = none := by
  induction xs with
  | nil => simp [mapOrThrow, h]
  | cons x xs ih =>
    simp only [List.cons_append, mapOrThrow]
    cases hfx : f x <;> simp [ih]

/-- Every output of a successful event-style map comes from some input entry. -/
theorem mapOrThrow_mem (f : RawItem → Option OutItem) (l : List RawItem)
    (os : List OutItem) (o : OutItem)
    (h : mapOrThrow f l = some os) (ho : o ∈ os) :
    ∃ i, i ∈ l ∧ f i = some o := by
  induction l generalizing os with
  | nil =>
    simp only [mapOrThrow, Option.some_inj] at h
    subst h
    simp at ho
  | cons x xs ih =>
    simp only [mapOrThrow] at h
    cases hfx : f x with
    | none => simp [hfx] at h
    | some ox =>
      rw [hfx] at h
      cases hre : mapOrThrow f xs with
      | none => rw [hre] at h; exact absurd h (by simp)
      | some oxs =>
        rw [hre, Option.some_inj] at h
        subst h
        rcases List.mem_cons.mp ho with h1 | h2
        · exact ⟨x, List.mem_cons_self _ _, h1 ▸ hfx⟩
        · obtain ⟨i, hi, hfi⟩ := ih oxs hre h2
          exact ⟨i, List.mem_cons_of_mem _ hi, hfi⟩

/-- Inversion for an emitted bucket movie: the effective watched date parsed
to its `watched_at`, it is movie-kind with no show/episode substructure, and
`started_at` subtracts `movieData.runtime || 0` minutes. -/
theorem bucketMovieItem_inv (i : RawItem) (o : OutItem)
    (h : bucketMovieItem i = some o) :
    effWatched i = some (some o.watched_at) ∧ o.type = "movie"
    ∧ o.started_at = o.watched_at - jsNumOr (bucketMovieData i).runtime 0 * 60000
    ∧ o.show_ = none ∧ o.episode = none ∧ o.movie.isSome = true := by
  unfold bucketMovieItem at h
  cases he : effWatched i with
  | none => rw [he] at h; exact absurd h (by simp)
  | some wd =>
    rw [he] at h
    dsimp only at h
    by_cases ht : truthyStr (bucketMovieData i).title = true
    · rw [if_pos ht] at h
      cases wd with
      | none => exact absurd h (by simp)
      | some t =>
        simp only [Option.some_inj] at h
        subst h
        simp
    · rw [if_neg (by simpa using ht)] at h
      exact absurd h (by simp)

/-- Inversion for an emitted bucket show item: the effective watched date
parsed to its `watched_at`, it is show-kind with both substructures present,
and `started_at` subtracts the resolved episode/show runtime. -/
theorem bucketShowItem_inv (i : RawItem) (o : OutItem)
    (h : bucketShowItem i = some o) :
    effWatched i = some (some o.watched_at) ∧ o.type = "show"
    ∧ o.show_.isSome = true ∧ o.episode.isSome = true
    ∧ ∃ ep, bucketFinalEp i = some ep
        ∧ o.started_at
            = o.watched_at
              - jsNumOr ep.runtime (jsNumOr (bucketShowData i).runtime 0) * 60000 := by
  unfold bucketShowItem at h
  cases he : effWatched i with
  | none => rw [he] at h; exact absurd h (by simp)
  | some wd =>
    rw [he] at h
    dsimp only at h
    by_cases ht : truthyStr (bucketShowData i).title = true
    · rw [if_pos ht] at h
      cases hep : bucketFinalEp i with
      | none => rw [hep] at h; exact absurd h (by simp)
      | some ep =>
        rw [hep] at h
        cases wd with
        | none => exact absurd h (by simp)
        | some t =>
          simp only [Option.some_inj] at h
          subst h
          exact ⟨rfl, rfl, rfl, rfl, ep, rfl, rfl⟩
    · rw [if_neg (by simpa using ht)] at h
      exact absurd h (by simp)

/-- Inversion for an emitted Trakt item: `watched_at` parsed, `started_at`
subtracts the branch's resolved runtime, and the item is either movie-kind
with no show/episode substructure or show-kind with both present. -/
theorem traktNormalizeItem_inv (i : RawItem) (o : OutItem)
    (h : traktNormalizeItem i = some o) :
    i.watched_at = some (some o.watched_at)
    ∧ o.started_at = o.watched_at - traktRuntime i * 60000
    ∧ ((o.type = "movie" ∧ o.movie.isSome = true ∧ o.show_ = none ∧ o.episode = none)
       ∨ (o.type = "show" ∧ o.show_.isSome = true ∧ o.episode.isSome = true)) := by
  unfold traktNormalizeItem at h
  cases hw : i.watched_at with
  | none => rw [hw] at h; exact absurd h (by simp)
  | some wd =>
    rw [hw] at h
    dsimp only at h
    split at h
    all_goals try exact Option.noConfusion h
    · rename_i m hty hmv
      split at h
      all_goals try exact Option.noConfusion h
      rename_i mids t hmid
      rw [Option.some_inj] at h
      subst h
      refine ⟨rfl, ?_, Or.inl (by simp)⟩
      simp [traktRuntime, hty, hmv]
    · rename_i sh ep hty hsh hep
      split at h
      all_goals try exact Option.noConfusion h
      rename_i sids eids t hsid heid
      rw [Option.some_inj] at h
      subst h
      refine ⟨rfl, ?_, Or.inr (by simp)⟩
      simp [traktRuntime, hty, hsh, hep]

/-- Inversion for an emitted event-style SIMKL item: `watched_at` parsed and
`started_at` subtracts the movie/episode/show-resolved runtime. -/
theorem simklNormalizeItem_inv (i : RawItem) (o : OutItem)
    (h : simklNormalizeItem i = some o) :
    i.watched_at = some (some o.watched_at)
    ∧ o.started_at = o.watched_at - simklEventRuntime i * 60000 := by
  unfold simklNormalizeItem at h
  cases hw : i.watched_at with
  | none => rw [hw] at h; exact Option.noConfusion h
  | some wd =>
    rw [hw] at h
    cases wd with
    | none => exact Option.noConfusion h
    | some t =>
      dsimp only at h
      rw [Option.some_inj] at h
      rcases hm : i.movie with _ | m
      · rcases hs : i.show_ with _ | sh
        · rw [hm, hs] at h
          dsimp only at h
          subst h
          exact ⟨rfl, rfl⟩
        · rcases he : i.episode with _ | ep <;> rw [hm, hs, he] at h <;>
            dsimp only at h <;> subst h <;> exact ⟨rfl, rfl⟩
      · rw [hm] at h
        dsimp only at h
        subst h
        exact ⟨rfl, rfl⟩

/-! ## Theorems about the normalizers -/

/-- C2 as stated is refuted by the event-style SIMKL normalizer: a batch with
one item lacking its watched timestamp next to one well-formed sibling raises
a batch-level parse error (the per-item throw is caught around the whole
map), so the well-formed sibling is not returned — the failing item is not
dropped silently. -/
theorem item_failure_batch_policy_counterexample :
    simklNormalize (SimklPayload.arr
        [{ movie := some { title := some "Y" } },
         { watched_at := some (some 1000),
           movie := some { title := some "X", runtime := some 120 } }]) = none
    ∧ simklNormalizeItem
        { watched_at := some (some 1000),
          movie := some { title := some "X", runtime := some 120 } } ≠ none := by
  exact ⟨rfl, by decide⟩

/-- C2 amended: only the bucketed normalizer drops a failing item silently and
keeps every sibling (both buckets, order preserved); in the event-style SIMKL
and Trakt normalizers any single failing item aborts the whole batch with a
batch-level parse error. -/
theorem item_failure_batch_policy
    (startTs endTs : Int) (xs ys : List RawItem) (bad : RawItem) :
    (bucketMovieItem bad = none →
      bucketProcess bucketMovieItem startTs endTs (some (xs ++ bad :: ys))
        = bucketProcess bucketMovieItem startTs endTs (some xs)
          ++ bucketProcess bucketMovieItem startTs endTs (some ys))
    ∧ (bucketShowItem bad = none →
      bucketProcess bucketShowItem startTs endTs (some (xs ++ bad :: ys))
        = bucketProcess bucketShowItem startTs endTs (some xs)
          ++ bucketProcess bucketShowItem startTs endTs (some ys))
    ∧ (simklNormalizeItem bad = none →
      simklNormalize (SimklPayload.arr (xs ++ bad :: ys)) = none)
    ∧ (traktNormalizeItem bad = none →
      traktNormalize (TraktPayload.arr (xs ++ bad :: ys)) = none) :=
  ⟨fun h => bucketProcess_append_none _ _ _ _ _ _ h,
   fun h => bucketProcess_append_none _ _ _ _ _ _ h,
   fun h => mapOrThrow_append_none _ _ _ _ h,
   fun h => mapOrThrow_append_none _ _ _ _ h⟩

/-- Witness for the amended C2: a titleless bucket movie is dropped and its
sibling kept; an event-style batch with an item lacking `watched_at` errors. -/
theorem item_failure_batch_policy_witness :
    (bucketProcess bucketMovieItem 0 2000
        (some ([{ watched_at := some (some 500), movie := some { title := some "In" } }]
          ++ ({ watched_at := some (some 600) } : RawItem) :: []))
      = bucketProcess bucketMovieItem 0 2000
          (some [{ watched_at := some (some 500), movie := some { title := some "In" } }])
        ++ bucketProcess bucketMovieItem 0 2000 (some []))
    ∧ simklNormalize (SimklPayload.arr
        ([{ watched_at := some (some 1000), movie := some { title := some "X" } }]
          ++ ({ movie := some { title := some "Y" } } : RawItem) :: [])) = none :=
  ⟨(item_failure_batch_policy 0 2000 _ [] _).1 (by decide),
   (item_failure_batch_policy 0 0 _ [] _).2.2.1 (by decide)⟩

/-- C3 as stated is refuted by the event-style SIMKL normalizer: an item with
show data but no episode identity is emitted as an episode-kind (`"show"`)
item whose `episode` substructure is absent, instead of being rejected. -/
theorem episode_substructure_counterexample :
    simklNormalize (SimklPayload.arr
        [{ watched_at := some (some 1000), show_ := some { title := some "S" } }])
      = some
          [{ watched_at := 1000, started_at := 1000, type := "show",
             show_ := some
               { title := some "S",
                 ids := { simkl := some 0, slug := some "" } },
             episode := none }]
    ∧ OutItem.episode
        { watched_at := 1000, started_at := 1000, type := "show",
          show_ := some
            { title := some "S",
              ids := { simkl := some 0, slug := some "" } },
          episode := none } = none :=
  ⟨rfl, rfl⟩

/-- C3 amended: the bucketed SIMKL normalizer and the Trakt normalizer emit an
episode-kind item only with both `show` and `episode` substructures present
(incomplete items are dropped or abort the batch, never emitted); the
event-style SIMKL normalizer does not satisfy this (see the counterexample). -/
theorem episode_items_have_substructures
    (startTs endTs : Int) (p : BucketPayload) (l : List OutItem)
    (items : List RawItem) (l2 : List OutItem) :
    (bucketNormalize startTs endTs p = some l →
      ∀ o, o ∈ l → o.type = "show" → o.show_.isSome = true ∧ o.episode.isSome = true)
    ∧ (traktNormalize (TraktPayload.arr items) = some l2 →
      ∀ o, o ∈ l2 → o.type = "show" → o.show_.isSome = true ∧ o.episode.isSome = true) := by
  constructor
  · intro h o ho hty
    unfold bucketNormalize at h
    split at h
    · exact Option.noConfusion h
    · rw [Option.some_inj] at h
      subst h
      rcases List.mem_append.mp ho with hmem | hmem
      · unfold bucketProcess at hmem
        rcases hp : p.movies with _ | ms
        · rw [hp] at hmem
          simp at hmem
        · rw [hp] at hmem
          dsimp only at hmem
          obtain ⟨i, hi, hfi⟩ := List.mem_filterMap.mp hmem
          have hmov := (bucketMovieItem_inv i o hfi).2.1
          rw [hmov] at hty
          exact absurd hty (by decide)
      · unfold bucketProcess at hmem
        rcases hp : p.shows with _ | ss
        · rw [hp] at hmem
          simp at hmem
        · rw [hp] at hmem
          dsimp only at hmem
          obtain ⟨i, hi, hfi⟩ := List.mem_filterMap.mp hmem
          have h2 := bucketShowItem_inv i o hfi
          exact ⟨h2.2.2.1, h2.2.2.2.1⟩
  · intro h o ho hty
    obtain ⟨i, hi, hfi⟩ := mapOrThrow_mem _ _ _ _ h ho
    rcases (traktNormalizeItem_inv i o hfi).2.2 with ⟨hm, _⟩ | ⟨_, hs, he⟩
    · rw [hm] at hty
      exact absurd hty (by decide)
    · exact ⟨hs, he⟩

/-- Witness for the amended C3 at a concrete bucketed show entry. -/
theorem episode_items_have_substructures_witness :
    (OutItem.show_
        { watched_at := 500, started_at := 500, type := "show",
          show_ := some
            { title := some "T",
              ids := { simkl := some 0, slug := some "" } },
          episode := some
            { title := some "", season := some 1, episode := some 2 } }).isSome = true
    ∧ (OutItem.episode
        { watched_at := 500, started_at := 500, type := "show",
          show_ := some
            { title := some "T",
              ids := { simkl := some 0, slug := some "" } },
          episode := some
            { title := some "", season := some 1, episode := some 2 } }).isSome = true :=
  (episode_items_have_substructures 0 1000
      { shows := some [{ watched_at := some (some 500), show_ := some { title := some "T" },
                         episode := some { season := some 1, episode := some 2 } }] }
      [{ watched_at := 500, started_at := 500, type := "show",
         show_ := some
           { title := some "T",
             ids := { simkl := some 0, slug := some "" } },
         episode := some
           { title := some "", season := some 1, episode := some 2 } }]
      [] []).1 (by decide)
    { watched_at := 500, started_at := 500, type := "show",
      show_ := some
        { title := some "T",
          ids := { simkl := some 0, slug := some "" } },
      episode := some
        { title := some "", season := some 1, episode := some 2 } }
    (by decide) rfl

/-- The runtime the bucketed movies branch resolves: `movieData.runtime || 0`
(part_002:230). -/
def bucketMovieRuntime (i : RawItem) : Int :=
  jsNumOr (bucketMovieData i).runtime 0

/-- The runtime the bucketed shows branch resolves:
`finalEpisodeData.runtime || showData.runtime || 0` (part_002:306). -/
def bucketShowRuntime (i : RawItem) : Int :=
  match bucketFinalEp i with
  | some ep => jsNumOr ep.runtime (jsNumOr (bucketShowData i).runtime 0)
  | none => 0

theorem jsNumOr_self_zero (x : Option Int) : jsNumOr x (jsNumOr x 0) = jsNumOr x 0 := by
  cases x with
  | none => rfl
  | some v => by_cases hv : v = 0 <;> simp [jsNumOr, hv]

/-- C4 as stated is refuted by the event-style SIMKL normalizer: it prefers
the movie runtime over the episode runtime (src/api/simkl.ts:208 checks
`item.movie` first), so an entry carrying both subtracts 100 minutes, not the
claimed episode-first 45. -/
theorem started_at_priority_counterexample :
    (simklNormalizeItem
        { watched_at := some (some 0),
          movie := some { title := some "X", runtime := some 100 },
          episode := some { runtime := some 45 } }).map OutItem.started_at
      = some (0 - 100 * 60000)
    ∧ (0 - 100 * 60000 : Int) ≠ 0 - 45 * 60000 := by
  exact ⟨by decide, by decide⟩

/-- C4 amended: every emitted item satisfies
`started_at = watched_at - runtime * 1min`, where the runtime is the
normalizer's own resolution — episode-runtime-first only in the Trakt and
bucketed normalizers, while the event-style SIMKL normalizer checks movie,
then episode, then show runtime; an episode entry with runtime 45 still
yields `startedAt = T - 45min`, and an entry with no known runtime yields
`startedAt = watchedAt`. -/
theorem started_at_runtime_rules (i : RawItem) (o : OutItem) :
    (simklNormalizeItem i = some o →
      o.started_at = o.watched_at - simklEventRuntime i * 60000)
    ∧ (traktNormalizeItem i = some o →
      o.started_at = o.watched_at - traktRuntime i * 60000)
    ∧ (bucketMovieItem i = some o →
      o.started_at = o.watched_at - bucketMovieRuntime i * 60000)
    ∧ (bucketShowItem i = some o →
      o.started_at = o.watched_at - bucketShowRuntime i * 60000)
    ∧ (traktNormalizeItem
        { watched_at := some (some 1000000), type := some "episode",
          show_ := some { title := some "S", ids := some {} },
          episode := some { season := some 1, number := some 2, runtime := some 45,
                            ids := some {} } }).map OutItem.started_at
        = some (1000000 - 45 * 60000)
    ∧ (simklNormalizeItem
        { watched_at := some (some 777), movie := some { title := some "X" } }).map
          OutItem.started_at = some 777 := by
  refine ⟨?_, ?_, ?_, ?_, by decide, by decide⟩
  · intro h
    exact (simklNormalizeItem_inv i o h).2
  · intro h
    exact (traktNormalizeItem_inv i o h).2.1
  · intro h
    simpa [bucketMovieRuntime] using (bucketMovieItem_inv i o h).2.2.1
  · intro h
    obtain ⟨-, -, -, -, ep, hep, hst⟩ := bucketShowItem_inv i o h
    unfold bucketShowRuntime
    rw [hep]
    exact hst

/-- Witness for the amended C4 at a concrete bucket movie entry. -/
theorem started_at_runtime_rules_witness :
    OutItem.started_at
        { watched_at := 500, started_at := 500 - 120 * 60000, type := "movie",
          movie := some
            { title := some "In", runtime := some 120,
              ids := { simkl := some 0, slug := some "" } } }
      = OutItem.watched_at
          { watched_at := 500, started_at := 500 - 120 * 60000, type := "movie",
            movie := some
              { title := some "In", runtime := some 120,
                ids := { simkl := some 0, slug := some "" } } }
        - bucketMovieRuntime
            { watched_at := some (some 500),
              movie := some { title := some "In", runtime := some 120 } } * 60000 :=
  (started_at_runtime_rules
    { watched_at := some (some 500),
      movie := some { title := some "In", runtime := some 120 } } _).2.2.1 (by decide)

/-- Every emitted bucket item of a sound callback sits inside the requested
range, because it survived the `bucketInRange` filter. -/
theorem bucketProcess_sound (f : RawItem → Option OutItem)
    (hf : ∀ i o, f i = some o → effWatched i = some (some o.watched_at))
    (startTs endTs : Int) (ml : Option (List RawItem)) (o : OutItem)
    (ho : o ∈ bucketProcess f startTs endTs ml) :
    startTs ≤ o.watched_at ∧ o.watched_at ≤ endTs := by
  rcases ml with _ | ms
  · simp [bucketProcess] at ho
  · unfold bucketProcess at ho
    dsimp only at ho
    obtain ⟨i, hi, hfi⟩ := List.mem_filterMap.mp ho
    have hr := (List.mem_filter.mp hi).2
    unfold bucketInRange at hr
    rw [hf i o hfi] at hr
    exact of_decide_eq_true hr

/-- A well-formed movie entry is mapped to an output with its timestamp. -/
theorem bucketMovieItem_emits (i : RawItem) (t : Int)
    (heff : effWatched i = some (some t))
    (htitle : truthyStr (bucketMovieData i).title = true) :
    ∃ o, bucketMovieItem i = some o ∧ o.watched_at = t ∧ o.type = "movie" := by
  unfold bucketMovieItem
  rw [heff]
  dsimp only
  rw [if_pos htitle]
  exact ⟨_, rfl, rfl, rfl⟩

/-- A well-formed show entry — truthy show title and a resolvable episode
identity — is mapped to an output with its timestamp. -/
theorem bucketShowItem_emits (i : RawItem) (t : Int)
    (heff : effWatched i = some (some t))
    (htitle : truthyStr (bucketShowData i).title = true)
    (hfin : (bucketFinalEp i).isSome = true) :
    ∃ o, bucketShowItem i = some o ∧ o.watched_at = t ∧ o.type = "show" := by
  unfold bucketShowItem
  rw [heff]
  dsimp only
  rw [if_pos htitle]
  cases hfe : bucketFinalEp i with
  | none => rw [hfe] at hfin; exact absurd hfin (by simp)
  | some ep => exact ⟨_, rfl, rfl, rfl⟩

/-- C5: the bucketed fetch applies an exact, inclusive millisecond range
check to both buckets: every emitted item's watched timestamp lies in
`[startTs, endTs]`; every well-formed movie entry inside the range is kept;
every well-formed show entry (truthy title, resolvable episode identity)
inside the range is kept; and the concrete payload with one movie inside and
one outside the range yields exactly one unified item. -/
theorem bucket_range_filter
    (startTs endTs : Int) (p : BucketPayload) (l : List OutItem) :
    (bucketNormalize startTs endTs p = some l →
      (∀ o, o ∈ l → startTs ≤ o.watched_at ∧ o.watched_at ≤ endTs)
      ∧ (∀ ms, p.movies = some ms → ∀ i, i ∈ ms → ∀ t,
          effWatched i = some (some t) → startTs ≤ t → t ≤ endTs →
          truthyStr (bucketMovieData i).title = true →
          ∃ o, o ∈ l ∧ o.watched_at = t ∧ o.type = "movie")
      ∧ (∀ ss, p.shows = some ss → ∀ i, i ∈ ss → ∀ t,
          effWatched i = some (some t) → startTs ≤ t → t ≤ endTs →
          truthyStr (bucketShowData i).title = true →
          (bucketFinalEp i).isSome = true →
          ∃ o, o ∈ l ∧ o.watched_at = t ∧ o.type = "show"))
    ∧ bucketNormalize 0 1000
        { movies := some
            [{ watched_at := some (some 500), movie := some { title := some "In" } },
             { watched_at := some (some 2000), movie := some { title := some "Out" } }] }
        = some
            [{ watched_at := 500, started_at := 500, type := "movie",
               movie := some
                 { title := some "In",
                   ids := { simkl := some 0, slug := some "" } } }] := by
  refine ⟨?_, by decide⟩
  intro h
  unfold bucketNormalize at h
  split at h
  · exact Option.noConfusion h
  · rw [Option.some_inj] at h
    subst h
    refine ⟨?_, ?_, ?_⟩
    · intro o ho
      rcases List.mem_append.mp ho with hmem | hmem
      · exact bucketProcess_sound bucketMovieItem
          (fun i o h => (bucketMovieItem_inv i o h).1) startTs endTs p.movies o hmem
      · exact bucketProcess_sound bucketShowItem
          (fun i o h => (bucketShowItem_inv i o h).1) startTs endTs p.shows o hmem
    · intro ms hms i hi t heff hge hle htitle
      obtain ⟨o, hfo, hwt, hty⟩ := bucketMovieItem_emits i t heff htitle
      refine ⟨o, ?_, hwt, hty⟩
      apply List.mem_append.mpr
      left
      rw [hms]
      unfold bucketProcess
      dsimp only
      apply List.mem_filterMap.mpr
      refine ⟨i, ?_, hfo⟩
      apply List.mem_filter.mpr
      refine ⟨hi, ?_⟩
      unfold bucketInRange
      rw [heff]
      exact decide_eq_true ⟨hge, hle⟩
    · intro ss hss i hi t heff hge hle htitle hfin
      obtain ⟨o, hfo, hwt, hty⟩ := bucketShowItem_emits i t heff htitle hfin
      refine ⟨o, ?_, hwt, hty⟩
      apply List.mem_append.mpr
      right
      rw [hss]
      unfold bucketProcess
      dsimp only
      apply List.mem_filterMap.mpr
      refine ⟨i, ?_, hfo⟩
      apply List.mem_filter.mpr
      refine ⟨hi, ?_⟩
      unfold bucketInRange
      rw [heff]
      exact decide_eq_true ⟨hge, hle⟩

/-- Witness for C5 at a payload with both buckets: the range bounds hold for
an emitted item, the in-range movie entry is kept, and the in-range show
entry is kept. -/
theorem bucket_range_filter_witness :
    ((0 : Int) ≤ OutItem.watched_at
        { watched_at := 500, started_at := 500, type := "movie",
          movie := some
            { title := some "In", ids := { simkl := some 0, slug := some "" } } }
      ∧ OutItem.watched_at
          { watched_at := 500, started_at := 500, type := "movie",
            movie := some
              { title := some "In", ids := { simkl := some 0, slug := some "" } } } ≤ 1000)
    ∧ (∃ o, o ∈
          [{ watched_at := 500, started_at := 500, type := "movie",
             movie := some
               { title := some "In",
                 ids := { simkl := some 0, slug := some "" } } },
           { watched_at := 600, started_at := 600, type := "show",
             show_ := some
               { title := some "T",
                 ids := { simkl := some 0, slug := some "" } },
             episode := some
               { title := some "", season := some 1, episode := some 2 } }]
        ∧ o.watched_at = 500 ∧ OutItem.type o = "movie")
    ∧ (∃ o, o ∈
          [{ watched_at := 500, started_at := 500, type := "movie",
             movie := some
               { title := some "In",
                 ids := { simkl := some 0, slug := some "" } } },
           { watched_at := 600, started_at := 600, type := "show",
             show_ := some
               { title := some "T",
                 ids := { simkl := some 0, slug := some "" } },
             episode := some
               { title := some "", season := some 1, episode := some 2 } }]
        ∧ o.watched_at = 600 ∧ OutItem.type o = "show") := by
  have h := (bucket_range_filter 0 1000
    { movies := some
        [{ watched_at := some (some 500), movie := some { title := some "In" } },
         { watched_at := some (some 2000), movie := some { title := some "Out" } }],
      shows := some
        [{ watched_at := some (some 600), show_ := some { title := some "T" },
           episode := some { season := some 1, episode := some 2 } }] }
    [{ watched_at := 500, started_at := 500, type := "movie",
       movie := some
         { title := some "In",
           ids := { simkl := some 0, slug := some "" } } },
     { watched_at := 600, started_at := 600, type := "show",
       show_ := some
         { title := some "T",
           ids := { simkl := some 0, slug := some "" } },
       episode := some
         { title := some "", season := some 1, episode := some 2 } }]).1 (by decide)
  refine ⟨?_, ?_, ?_⟩
  · exact h.1
      { watched_at := 500, started_at := 500, type := "movie",
        movie := some
          { title := some "In", ids := { simkl := some 0, slug := some "" } } }
      (by decide)
  · exact h.2.1 _ rfl
      { watched_at := some (some 500), movie := some { title := some "In" } }
      (by decide) 500 rfl (by decide) (by decide) (by decide)
  · exact h.2.2 _ rfl
      { watched_at := some (some 600), show_ := some { title := some "T" },
        episode := some { season := some 1, episode := some 2 } }
      (by decide) 600 rfl (by decide) (by decide) (by decide) (by decide)

/-- C8: a bucketed show entry lacking a structured episode object is emitted
with the season and episode number parsed from the first
`S<season>E<episode>` occurrence in `last_watched` (empty episode title, show
runtime as the fallback runtime), and is rejected when `last_watched` is
falsy or the pattern does not match. -/
theorem show_entry_summary_fallback (i : RawItem) (t : Int) (sn en : Nat)
    (hep : i.episode = none)
    (htitle : truthyStr (bucketShowData i).title = true)
    (heff : effWatched i = some (some t)) :
    (truthyStr i.last_watched = true →
      parseSE (i.last_watched.getD "") = some (sn, en) →
      ∃ o, bucketShowItem i = some o
        ∧ o.episode = some
            { title := some "", season := some (sn : Int), episode := some (en : Int),
              runtime := (bucketShowData i).runtime, ids := {} }
        ∧ o.started_at = t - jsNumOr (bucketShowData i).runtime 0 * 60000)
    ∧ ((truthyStr i.last_watched = false ∨ parseSE (i.last_watched.getD "") = none) →
      bucketShowItem i = none) := by
  have hfe : bucketFinalEp i
      = (if truthyStr i.last_watched = true then
          match parseSE (i.last_watched.getD "") with
          | some p =>
            some { title := some "", season := some (p.1 : Int), episode := some (p.2 : Int),
                   runtime := (bucketShowData i).runtime }
          | none => none
        else none) := by
    unfold bucketFinalEp
    rw [hep]
  constructor
  · intro hlw hse
    unfold bucketShowItem
    rw [heff]
    dsimp only
    rw [if_pos htitle, hfe, if_pos hlw, hse]
    dsimp only
    refine ⟨_, rfl, rfl, ?_⟩
    dsimp only
    rw [jsNumOr_self_zero]
  · intro hrej
    unfold bucketShowItem
    rw [heff]
    dsimp only
    rw [if_pos htitle, hfe]
    rcases hrej with hlw | hse
    · rw [if_neg (by simp [hlw])]
    · by_cases hlw : truthyStr i.last_watched = true
      · rw [if_pos hlw, hse]
      · rw [if_neg hlw]

/-- Witness for C8: a compact `S2E5` summary is parsed, a non-matching
summary is rejected. -/
theorem show_entry_summary_fallback_witness :
    bucketShowItem
        { watched_at := some (some 500), show_ := some { title := some "T" },
          last_watched := some "nope" } = none
    ∧ (bucketShowItem
        { watched_at := some (some 500),
          show_ := some { title := some "T", runtime := some 30 },
          last_watched := some "S2E5" }).isSome = true := by
  constructor
  · exact (show_entry_summary_fallback
      { watched_at := some (some 500), show_ := some { title := some "T" },
        last_watched := some "nope" }
      500 0 0 rfl (by decide) rfl).2 (Or.inr (by decide))
  · obtain ⟨o, ho, -, -⟩ :=
      (show_entry_summary_fallback
        { watched_at := some (some 500),
          show_ := some { title := some "T", runtime := some 30 },
          last_watched := some "S2E5" }
        500 2 5 rfl (by decide) rfl).1 (by decide) (by decide)
    rw [ho]
    rfl

end MediaTracker
